import Mathlib

/-!
Verification development for the hoophead governed-access caching subsystem.

This file gives a shallow embedding, in Lean, of the tiered
authentication / rate-limit manager (adapters/external/auth_manager.py),
the hot cache (adapters/cache/redis_client.py), the persistent file
cache (adapters/cache/file_cache.py) and the cache orchestrator
(adapters/cache/multi_cache_manager.py), together with theorems settling
the specification claims about them.

Modelling conventions:
- Wall-clock time is a natural number of seconds (time.time(),
  datetime.utcnow()).  Every operation that reads the clock takes the
  current time as an explicit argument.
- Python dicts are association lists with distinct keys, accessed with
  dget / dput below.
- Cryptographic digests (hashlib.sha256 / hashlib.md5) and the Python
  builtin string hash are modelled by concrete deterministic fold
  hashes; only their determinism is relied upon, never any property of
  the particular digest values.
- json.dumps / json.loads and gzip.compress / gzip.decompress are
  external libraries modelled by their inverse-pair contract: a stored
  value records which encoding was applied and the record it encodes,
  and the byte length of the json rendering is modelled by the length
  of a concrete rendering function.  Whether a read path can actually
  decode a stored value follows the configured client: the hot-layer
  client decodes responses as UTF-8 (decode_responses=True), so a
  gzip-compressed value raises there and the read is a miss, while the
  file layer reads raw bytes and decompresses by its try-then-fallback
  logic.
- async methods are sequentialized: a fire-and-forget metadata
  write-back is applied synchronously before the call returns.
-/

/-- Generic lookup in an association list modelling a Python dict. -/
def dget {β : Type} : List (String × β) → String → Option β
  | [], _ => none
  | (k', v) :: rest, k => if k' = k then some v else dget rest k

/-- Generic insert-or-replace in an association list modelling assignment
into a Python dict.  Replaces the first binding of the key in place, or
appends a new binding. -/
def dput {β : Type} : List (String × β) → String → β → List (String × β)
  | [], k, v => [(k, v)]
  | (k', v') :: rest, k, v =>
    if k' = k then (k, v) :: rest else (k', v') :: dput rest k v

/-- Number of bindings an association list holds for a key. -/
def countKey {β : Type} : List (String × β) → String → Nat
  | [], _ => 0
  | (k', _) :: rest, k => (if k' = k then 1 else 0) + countKey rest k

/-- Code-point lexicographic order on character lists, the order Python
uses to compare strings (sort_keys=True, sorted(...)). -/
def strLeChars : List Char → List Char → Bool
  | [], _ => true
  | _ :: _, [] => false
  | a :: as, b :: bs => if a < b then true else if b < a then false else strLeChars as bs

/-- Code-point lexicographic order on strings. -/
def strLe (x y : String) : Bool := strLeChars x.data y.data

/-- Whether the first character list is an initial segment of the second
(helper for Python substring containment). -/
def charsLead : List Char → List Char → Bool
  | [], _ => true
  | _ :: _, [] => false
  | a :: as, b :: bs => a = b && charsLead as bs

/-- Whether the first character list occurs contiguously inside the
second. -/
def charsContains (needle : List Char) : List Char → Bool
  | [] => charsLead needle []
  | c :: rest => charsLead needle (c :: rest) || charsContains needle rest

/-- Python substring containment: needle in hay. -/
def strContains (hay needle : String) : Bool := charsContains needle.data hay.data

/-- Hexadecimal digit character (0-9, a-f), as hexdigest produces. -/
def hexDigitChar (n : Nat) : Char :=
  if n < 10 then Char.ofNat (48 + n) else Char.ofNat (87 + n)

/-- Fixed-width big-endian hexadecimal rendering of a natural number. -/
def natHexDigits : Nat → Nat → List Char
  | 0, _ => []
  | w + 1, n => natHexDigits w (n / 16) ++ [hexDigitChar (n % 16)]

/-- Deterministic 64-bit fold over a string; the common core of the
digest models below. -/
def strFoldHash (seed mult : Nat) (s : String) : Nat :=
  s.data.foldl (fun h c => (h * mult + c.toNat) % 2 ^ 64) seed

/-- Model of hashlib.sha256(key.encode()).hexdigest()[:16]: an
unspecified deterministic 16-hex-character digest of the string.  Only
determinism (same input, same output) is relied upon. -/
def sha256Hex16 (s : String) : String :=
  String.mk (natHexDigits 16 (strFoldHash 5381 131 s % 16 ^ 16))

/-- Model of hashlib.md5(s.encode()).hexdigest()[:8]: an unspecified
deterministic 8-hex-character digest of the string. -/
def md5Hex8 (s : String) : String :=
  String.mk (natHexDigits 8 (strFoldHash 7919 257 s % 16 ^ 8))

/-- Model of the Python builtin hash() on strings: an unspecified
deterministic integer function of the string (within one process). -/
def pyStrHash (s : String) : Int := (strFoldHash 977 313 s : Int)

/-- Model of str(time.time()) / datetime.utcnow().isoformat(): an
injective rendering of the current time. -/
def timeStamp (now : Nat) : String := toString now

/-- A JSON-representable parameter value (the params dicts passed to the
cache layers hold simple scalar values). -/
inductive PVal where
  | s (v : String)
  | i (n : Int)
deriving DecidableEq, Repr

/-- A params dict, as an association list in insertion order. -/
def Params : Type := List (String × PVal)

instance : DecidableEq Params := by
  unfold Params
  infer_instance

/-- Rendering of one parameter value inside json.dumps output. -/
def PVal.render : PVal → String
  | .s v => "\x22" ++ v ++ "\x22"
  | .i n => toString n

/-- Key ordering used to canonicalize params (json.dumps sort_keys=True
and sorted(params.items()) both sort by key). -/
def paramKeyLe (p q : String × PVal) : Prop := strLe p.1 q.1 = true

instance : DecidableRel paramKeyLe := fun p q => by
  unfold paramKeyLe
  infer_instance

/-- Canonicalization of a params dict: stable sort by key, the model of
Python producing the items in sorted key order. -/
def sortParams (ps : Params) : List (String × PVal) :=
  List.insertionSort paramKeyLe ps

/-- Model of json.dumps(params or \x7b\x7d, sort_keys=True): keys in
sorted order with the standard separators. -/
def jsonDumpsSorted (ps : Params) : String :=
  "\x7b" ++
    String.intercalate ", "
      ((sortParams ps).map (fun p => "\x22" ++ p.1 ++ "\x22: " ++ p.2.render)) ++
  "\x7d"

/-! ## Authentication manager (adapters/external/auth_manager.py) -/

/-- APITier enum of auth_manager.py. -/
inductive APITier where
  | free
  | pro
  | premium
  | enterprise
deriving DecidableEq, Repr

/-- String value of an APITier (str Enum). -/
def APITier.value : APITier → String
  | .free => "free"
  | .pro => "pro"
  | .premium => "premium"
  | .enterprise => "enterprise"

/-- TierLimits dataclass. -/
structure TierLimits where
  requests_per_hour : Nat
  requests_per_minute : Nat
  concurrent_requests : Nat
  cache_priority : Nat
  features : List String
deriving DecidableEq, Repr

/-- The tier_limits table built in AuthenticationManager.__init__. -/
def tier_limits : APITier → TierLimits
  | .free =>
    ⟨100, 10, 1, 1, ["basic_stats", "teams", "players"]⟩
  | .pro =>
    ⟨1000, 50, 3, 2,
      ["basic_stats", "teams", "players", "advanced_stats", "historical_data"]⟩
  | .premium =>
    ⟨5000, 200, 5, 3,
      ["basic_stats", "teams", "players", "advanced_stats", "historical_data",
       "real_time"]⟩
  | .enterprise =>
    ⟨50000, 1000, 10, 4,
      ["basic_stats", "teams", "players", "advanced_stats", "historical_data",
       "real_time", "bulk_export"]⟩

/-- APIKeyInfo dataclass: one record per registered credential. -/
structure APIKeyInfo where
  key_id : String
  tier : APITier
  encrypted_key : String
  created_at : String
  last_used : String
  requests_count : Nat
  hourly_requests : Nat
  hourly_reset_time : Nat
  minute_requests : Nat
  minute_reset_time : Nat
  is_active : Bool
  label : Option String
deriving DecidableEq, Repr

/-- Mutable state of an AuthenticationManager: the api_keys dict and the
default key id. -/
structure AuthState where
  api_keys : List (String × APIKeyInfo)
  default_key_id : Option String
deriving DecidableEq, Repr

/-- AuthenticationManager._generate_key_id: deterministic id derived
from the raw credential. -/
def generate_key_id (api_key : String) : String := sha256Hex16 api_key

/-- Model of Fernet encryption in _encrypt_key: an injective reversible
encoding of the secret. -/
def encrypt_key (api_key : String) : String := "fernet:" ++ api_key

/-- AuthenticationManager.add_api_key.  Builds a fresh APIKeyInfo (all
counters zero) and assigns it into the api_keys dict under the derived
key id, then updates the default key id.  Returns (new state, key_id). -/
def add_api_key (st : AuthState) (now : Nat) (api_key : String) (tier : APITier)
    (label : Option String) (set_as_default : Bool) : AuthState × String :=
  let key_id := generate_key_id api_key
  let key_info : APIKeyInfo :=
    { key_id := key_id
      tier := tier
      encrypted_key := encrypt_key api_key
      created_at := timeStamp now
      last_used := timeStamp now
      requests_count := 0
      hourly_requests := 0
      hourly_reset_time := 0
      minute_requests := 0
      minute_reset_time := 0
      is_active := true
      label := label }
  let api_keys' := dput st.api_keys key_id key_info
  let default' :=
    if set_as_default || st.default_key_id.isNone then some key_id
    else st.default_key_id
  (⟨api_keys', default'⟩, key_id)

/-- The key id an Optional key_id argument resolves to (explicit id, or
the default key id when none is given). -/
def effective_key_id (st : AuthState) (key_id : Option String) : Option String :=
  match key_id with
  | some k => some k
  | none => st.default_key_id

/-- AuthenticationManager.get_key_info: record lookup through the
default-key fallback. -/
def get_key_info (st : AuthState) (key_id : Option String) : Option APIKeyInfo :=
  match effective_key_id st key_id with
  | none => none
  | some k => dget st.api_keys k

/-- The rate_limit_info dict returned by check_rate_limit. -/
structure RateLimitInfo where
  tier : String
  hourly_remaining : Nat
  minute_remaining : Nat
  hourly_reset : Nat
  minute_reset : Nat
  concurrent_limit : Nat
deriving DecidableEq, Repr

/-- AuthenticationManager.check_rate_limit.  Resets a window counter the
moment now has reached its reset time (new boundary one window length
ahead of now), then compares both counters against the tier limits.
Returns the state with the (possibly reset) record written back, the
allowed flag, and the info dict (none models the invalid-key error
dict).  Nat subtraction in the remaining counts models max(0, ...). -/
def check_rate_limit (st : AuthState) (key_id : Option String) (now : Nat) :
    AuthState × Bool × Option RateLimitInfo :=
  match effective_key_id st key_id with
  | none => (st, false, none)
  | some kid =>
    match dget st.api_keys kid with
    | none => (st, false, none)
    | some ki =>
      let tl := tier_limits ki.tier
      let ki1 :=
        if ki.hourly_reset_time ≤ now then
          { ki with hourly_requests := 0, hourly_reset_time := now + 3600 }
        else ki
      let ki2 :=
        if ki1.minute_reset_time ≤ now then
          { ki1 with minute_requests := 0, minute_reset_time := now + 60 }
        else ki1
      let hour_allowed := ki2.hourly_requests < tl.requests_per_hour
      let minute_allowed := ki2.minute_requests < tl.requests_per_minute
      let info : RateLimitInfo :=
        { tier := ki.tier.value
          hourly_remaining := tl.requests_per_hour - ki2.hourly_requests
          minute_remaining := tl.requests_per_minute - ki2.minute_requests
          hourly_reset := ki2.hourly_reset_time
          minute_reset := ki2.minute_reset_time
          concurrent_limit := tl.concurrent_requests }
      (⟨dput st.api_keys kid ki2, st.default_key_id⟩,
        decide (hour_allowed ∧ minute_allowed), some info)

/-- AuthenticationManager.record_request: unconditionally increments
requests_count, hourly_requests and minute_requests and stamps
last_used for a known key; the success flag is accepted and ignored,
exactly as in the source. -/
def record_request (st : AuthState) (key_id : Option String) (success : Bool)
    (now : Nat) : AuthState :=
  match effective_key_id st key_id with
  | none => st
  | some kid =>
    match dget st.api_keys kid with
    | none => st
    | some ki =>
      let _ := success
      let ki' :=
        { ki with
          requests_count := ki.requests_count + 1
          hourly_requests := ki.hourly_requests + 1
          minute_requests := ki.minute_requests + 1
          last_used := timeStamp now }
      ⟨dput st.api_keys kid ki', st.default_key_id⟩

/-- One authorize-then-record round: check_rate_limit followed by
record_request at the same instant. -/
def auth_cycle (st : AuthState) (key_id : Option String) (now : Nat) : AuthState :=
  record_request (check_rate_limit st key_id now).1 key_id true now

/-- n authorize-then-record rounds at the same instant. -/
def auth_cycles (key_id : Option String) (now : Nat) : Nat → AuthState → AuthState
  | 0, st => st
  | n + 1, st => auth_cycles key_id now n (auth_cycle st key_id now)

/-- n registrations of the same secret in a row (add_api_key repeated). -/
def register_n (sec : String) (tier : APITier) (label : Option String)
    (set_as_default : Bool) (now : Nat) : Nat → AuthState → AuthState
  | 0, st => st
  | n + 1, st =>
    register_n sec tier label set_as_default now n
      (add_api_key st now sec tier label set_as_default).1

/-! ## Hot cache (adapters/cache/redis_client.py) -/

/-- Sport enum of redis_client.py. -/
inductive Sport where
  | nba
  | mlb
  | nfl
  | nhl
  | epl
deriving DecidableEq, Repr

/-- String value of a Sport (str Enum). -/
def Sport.value : Sport → String
  | .nba => "nba"
  | .mlb => "mlb"
  | .nfl => "nfl"
  | .nhl => "nhl"
  | .epl => "epl"

/-- CacheEntry dataclass of the hot layer.  The data payload is the
JSON-serializable response body, modelled as its serialized text. -/
structure CacheEntry where
  data : String
  timestamp : String
  sport : String
  endpoint : String
  compressed : Bool
  hit_count : Nat
deriving DecidableEq, Repr

/-- Model of json.dumps(asdict(entry)) for a hot-layer entry, used only
for its byte length in the compression-threshold test. -/
def renderCacheEntry (e : CacheEntry) : String :=
  "\x7b\x22data\x22: " ++ e.data ++ ", \x22timestamp\x22: \x22" ++ e.timestamp ++
  "\x22, \x22sport\x22: \x22" ++ e.sport ++ "\x22, \x22endpoint\x22: \x22" ++
  e.endpoint ++ "\x22, \x22compressed\x22: " ++
  (if e.compressed then "true" else "false") ++
  ", \x22hit_count\x22: " ++ toString e.hit_count ++ "\x7d"

/-- A value as stored in the backing key-value store: either the plain
json text of an entry, or its gzip compression.  gzip is modelled by
its round-trip contract (the gzipped constructor remembers the entry it
encodes). -/
inductive RedisVal where
  | plain (e : CacheEntry)
  | gzipped (e : CacheEntry)
deriving DecidableEq, Repr

/-- One stored key of the backing store: payload plus the absolute
expiry instant set by SETEX. -/
structure RedisStored where
  value : RedisVal
  expire_at : Nat
deriving DecidableEq, Repr

/-- State of a RedisCache: the enabled flag, whether a client connection
exists, and the backing store contents. -/
structure RedisState where
  enabled : Bool
  connected : Bool
  store : List (String × RedisStored)
deriving DecidableEq, Repr

/-- Backing-store GET: a key that has reached its expiry instant is
gone. -/
def redisRawGet (rs : RedisState) (k : String) (now : Nat) : Option RedisVal :=
  match dget rs.store k with
  | none => none
  | some e => if now < e.expire_at then some e.value else none

/-- Backing-store TTL command: remaining seconds, or -2 when the key is
absent or expired. -/
def redisTtl (rs : RedisState) (k : String) (now : Nat) : Int :=
  match dget rs.store k with
  | none => -2
  | some e => if now < e.expire_at then (e.expire_at : Int) - (now : Int) else -2

/-- Backing-store SETEX: store a value with a relative TTL. -/
def redisSetex (rs : RedisState) (k : String) (ttl : Nat) (v : RedisVal)
    (now : Nat) : RedisState :=
  { rs with store := dput rs.store k ⟨v, now + ttl⟩ }

/-- RedisCache._generate_cache_key: hoophead:v1:sport:endpoint:hash of
the canonicalized params. -/
def generate_cache_key (sport : Sport) (endpoint : String) (params : Params) :
    String :=
  let params_str := jsonDumpsSorted params
  let params_hash := toString (pyStrHash params_str)
  "hoophead" ++ ":" ++ "v1" ++ ":" ++ sport.value ++ ":" ++ endpoint ++ ":" ++
    params_hash

/-- RedisCache.sport_ttl_strategies together with _get_ttl_for_endpoint:
the per-(sport, endpoint) TTL table with its per-sport default. -/
def get_ttl_for_endpoint (sport : Sport) (endpoint : String) : Nat :=
  match sport with
  | .nba =>
    if endpoint = "teams" then 86400
    else if endpoint = "players" then 21600
    else if endpoint = "games" then 3600
    else if endpoint = "stats" then 1800
    else 3600
  | .mlb =>
    if endpoint = "teams" then 86400
    else if endpoint = "players" then 21600
    else if endpoint = "games" then 3600
    else if endpoint = "stats" then 1800
    else 3600
  | .nfl =>
    if endpoint = "teams" then 86400
    else if endpoint = "players" then 43200
    else if endpoint = "games" then 7200
    else if endpoint = "stats" then 3600
    else 7200
  | .nhl =>
    if endpoint = "teams" then 86400
    else if endpoint = "players" then 21600
    else if endpoint = "games" then 3600
    else if endpoint = "stats" then 1800
    else 3600
  | .epl =>
    if endpoint = "teams" then 86400
    else if endpoint = "players" then 43200
    else if endpoint = "games" then 7200
    else if endpoint = "stats" then 3600
    else 7200

/-- The compression threshold of the hot layer (bytes). -/
def redis_compression_threshold : Nat := 1024

/-- The api_response argument of RedisCache.set: a success flag that may
be absent, and the data payload. -/
structure ApiResponse where
  success : Option Bool
  data : String
deriving DecidableEq, Repr

/-- The APIResponse-like structure a hot-layer hit returns. -/
structure HotHit where
  data : String
  success : Bool
  sport : String
  cached : Bool
  timestamp : String
  hits : Nat
deriving DecidableEq, Repr

/-- RedisCache._update_hit_count: re-serialize the entry and write it
back with SETEX using the remaining TTL of the key; skipped when no
positive TTL remains. -/
def update_hit_count (rs : RedisState) (cache_key : String) (entry : CacheEntry)
    (now : Nat) : RedisState :=
  let v := if entry.compressed then RedisVal.gzipped entry else RedisVal.plain entry
  let ttl := redisTtl rs cache_key now
  if 0 < ttl then redisSetex rs cache_key ttl.toNat v now else rs

/-- RedisCache.get: compute the canonical key and read the store
through the configured client.  The client is built from
settings.redis_connection_kwargs, which sets decode_responses to True
on every configuration path, so the client decodes each stored value
as UTF-8 before returning it: a gzip-compressed value (its bytes start
with 0x1f 0x8b, invalid UTF-8) makes that decode raise inside the try
block of get, the except swallows the error and get returns None — a
miss; the isinstance-bytes decompression branch is unreachable under
this configuration.  A plain json value is deserialized, its hit_count
bumped, the record written back through _update_hit_count
(sequentialized), and the APIResponse-like hit returned. -/
def redis_get (rs : RedisState) (sport : Sport) (endpoint : String)
    (params : Params) (now : Nat) : RedisState × Option HotHit :=
  if ¬ (rs.enabled && rs.connected) then (rs, none)
  else
    let cache_key := generate_cache_key sport endpoint params
    match redisRawGet rs cache_key now with
    | none => (rs, none)
    | some (RedisVal.gzipped _) => (rs, none)
    | some (RedisVal.plain entry) =>
      let entry' := { entry with hit_count := entry.hit_count + 1 }
      let rs' := update_hit_count rs cache_key entry' now
      (rs',
        some
          { data := entry'.data
            success := true
            sport := entry'.sport
            cached := true
            timestamp := entry'.timestamp
            hits := entry'.hit_count })

/-- RedisCache.set: refuse when disabled or when the response is not
flagged successful (an absent flag counts as False); otherwise build a
fresh entry, serialize it, compress above the threshold, and SETEX it
under the endpoint TTL.  As in the source, the json snapshot is taken
before the compressed flag is raised, so the stored record always says
compressed := false. -/
def redis_set (rs : RedisState) (sport : Sport) (endpoint : String)
    (api_response : ApiResponse) (params : Params) (now : Nat) :
    RedisState × Bool :=
  if ¬ (rs.enabled && rs.connected) then (rs, false)
  else if api_response.success.getD false = false then (rs, false)
  else
    let cache_key := generate_cache_key sport endpoint params
    let entry : CacheEntry :=
      { data := api_response.data
        timestamp := timeStamp now
        sport := sport.value
        endpoint := endpoint
        compressed := false
        hit_count := 0 }
    let entry_json := renderCacheEntry entry
    let cached_data :=
      if redis_compression_threshold < entry_json.length then
        RedisVal.gzipped entry
      else RedisVal.plain entry
    let ttl := get_ttl_for_endpoint sport endpoint
    (redisSetex rs cache_key ttl cached_data now, true)

/-! ## Persistent file cache (adapters/cache/file_cache.py) -/

/-- FileCacheStrategy enum. -/
inductive FileCacheStrategy where
  | historical
  | seasonal
  | daily
  | transient
deriving DecidableEq, Repr

/-- String value of a FileCacheStrategy (str Enum). -/
def FileCacheStrategy.value : FileCacheStrategy → String
  | .historical => "historical"
  | .seasonal => "seasonal"
  | .daily => "daily"
  | .transient => "transient"

/-- The retention_policies table (days per strategy). -/
def retention_days : FileCacheStrategy → Nat
  | .historical => 365
  | .seasonal => 180
  | .daily => 30
  | .transient => 7

/-- FileCacheEntry dataclass of the persistent layer. -/
structure FileCacheEntry where
  data : String
  timestamp : String
  sport : String
  endpoint : String
  params_hash : String
  access_count : Nat
  last_accessed : String
  file_size : Nat
  compressed : Bool
  tier_priority : Nat
deriving DecidableEq, Repr

/-- A persistent-cache file path, as its four components below the cache
root: sport / endpoint / strategy / filename. -/
structure CachePath where
  sport : String
  endpoint : String
  strategy : String
  filename : String
deriving DecidableEq, Repr

/-- FileCache._get_file_path: hierarchical path from sport, endpoint,
strategy, the current month bucket and the md5 hash of the
canonicalized params.  month_str stands for
datetime.now().strftime of the year-month pattern at call time. -/
def get_file_path (sport : Sport) (endpoint : String) (params : Params)
    (strategy : FileCacheStrategy) (month_str : String) : CachePath :=
  let params_str := jsonDumpsSorted params
  let params_hash := md5Hex8 params_str
  { sport := sport.value
    endpoint := endpoint
    strategy := strategy.value
    filename := month_str ++ "_" ++ params_hash ++ ".cache" }

/-- Model of json.dumps of a file-cache entry dict, used only for its
byte length in the compression-threshold test. -/
def renderFileCacheEntry (e : FileCacheEntry) : String :=
  "\x7b\x22data\x22: " ++ e.data ++ ", \x22timestamp\x22: \x22" ++ e.timestamp ++
  "\x22, \x22sport\x22: \x22" ++ e.sport ++ "\x22, \x22endpoint\x22: \x22" ++
  e.endpoint ++ "\x22, \x22params_hash\x22: \x22" ++ e.params_hash ++
  "\x22, \x22access_count\x22: " ++ toString e.access_count ++
  ", \x22last_accessed\x22: \x22" ++ e.last_accessed ++
  "\x22, \x22file_size\x22: " ++ toString e.file_size ++
  ", \x22compressed\x22: " ++ (if e.compressed then "true" else "false") ++
  ", \x22tier_priority\x22: " ++ toString e.tier_priority ++ "\x7d"

/-- The compression threshold of the persistent layer (5 KB). -/
def file_compression_threshold : Nat := 5 * 1024

/-- Bytes of a persistent-cache file: the plain json of an entry, or its
gzip compression; gzip is modelled by its round-trip contract. -/
inductive FileBytes where
  | plain (e : FileCacheEntry)
  | gzipped (e : FileCacheEntry)
deriving DecidableEq, Repr

/-- FileCache._serialize_data: serialize the entry snapshot, compress
when the serialized size exceeds the threshold, and report the
resulting file size (the entry mutation of compressed / file_size
happens after the json snapshot is taken, exactly as in the source;
gzip output size is not observable by any claim and is modelled as the
input size). -/
def serialize_entry (e : FileCacheEntry) : FileBytes × Nat :=
  let serialized_len := (renderFileCacheEntry e).length
  if file_compression_threshold < serialized_len then
    (FileBytes.gzipped e, serialized_len)
  else (FileBytes.plain e, serialized_len)

/-- State of a FileCache: the files on disk and the running total-size
bookkeeping (analytics total_size), plus the configured size cap. -/
structure FCState where
  store : List (CachePath × FileBytes)
  total_size : Int
  max_size_bytes : Nat
deriving DecidableEq, Repr

/-- Lookup of a file by path. -/
def fcGet : List (CachePath × FileBytes) → CachePath → Option FileBytes
  | [], _ => none
  | (p', v) :: rest, p => if p' = p then some v else fcGet rest p

/-- Write of a file at a path (overwrite in place or create). -/
def fcPut : List (CachePath × FileBytes) → CachePath → FileBytes →
    List (CachePath × FileBytes)
  | [], p, v => [(p, v)]
  | (p', v') :: rest, p, v =>
    if p' = p then (p, v) :: rest else (p', v') :: fcPut rest p v

/-- FileCache.get: resolve the path, clean miss when the file is
absent; on hit, deserialize (the compressed-first attempt succeeds
exactly on gzipped bytes, the fallback reads plain bytes), bump the
access metadata and write it back through _update_metadata
(sequentialized), and return the payload. -/
def file_get (fs : FCState) (sport : Sport) (endpoint : String) (params : Params)
    (strategy : FileCacheStrategy) (month_str : String) (now : Nat) :
    FCState × Option String :=
  let path := get_file_path sport endpoint params strategy month_str
  match fcGet fs.store path with
  | none => (fs, none)
  | some fb =>
    let entry :=
      match fb with
      | .gzipped e => e
      | .plain e => e
    let entry' :=
      { entry with
        access_count := entry.access_count + 1
        last_accessed := timeStamp now }
    let fs' := { fs with store := fcPut fs.store path (serialize_entry entry').1 }
    (fs', some entry'.data)

/-- FileCache.set: build a fresh entry for the payload, serialize and
optionally compress it, write the file and add its size to the running
total.  A cleanup task may be scheduled when the total exceeds the cap;
being fire-and-forget, it is not part of this transition.  Returns
True. -/
def file_set (fs : FCState) (sport : Sport) (endpoint : String) (data : String)
    (params : Params) (strategy : FileCacheStrategy) (tier_priority : Nat)
    (month_str : String) (now : Nat) : FCState × Bool :=
  let path := get_file_path sport endpoint params strategy month_str
  let params_str := jsonDumpsSorted params
  let entry : FileCacheEntry :=
    { data := data
      timestamp := timeStamp now
      sport := sport.value
      endpoint := endpoint
      params_hash := md5Hex8 params_str
      access_count := 0
      last_accessed := ""
      file_size := 0
      compressed := false
      tier_priority := tier_priority }
  let (file_bytes, size) := serialize_entry entry
  ({ fs with
     store := fcPut fs.store path file_bytes
     total_size := fs.total_size + (size : Int) }, true)

/-- One file as the cleanup sweep scans it: path, stat modification
time, stat size, and the strategy read off the parent directory name. -/
structure ScanFile where
  path : CachePath
  mtime : Nat
  size : Nat
  strategy : FileCacheStrategy
deriving DecidableEq, Repr

/-- Age of a file in whole days, as the timedelta days attribute of
current_time - mtime computes it. -/
def age_days (now mtime : Nat) : Nat := (now - mtime) / 86400

/-- The oldest-first scan order of the cleanup sweep. -/
def mtimeLe (a b : ScanFile) : Prop := a.mtime ≤ b.mtime

instance : DecidableRel mtimeLe := fun a b => by
  unfold mtimeLe
  infer_instance

/-- The loop body of FileCache._cleanup_old_files over the oldest-first
file list: delete a file when its age exceeds its strategy's retention
window (updating the size bookkeeping), then stop as soon as the
recorded total size is at most 80 percent of the cap.  Returns the
surviving files and the final recorded total. -/
def cleanup_sweep (now : Nat) (max_size_bytes : Nat) :
    Int → List ScanFile → List ScanFile × Int
  | total, [] => ([], total)
  | total, f :: rest =>
    let expired := retention_days f.strategy < age_days now f.mtime
    let total' := if expired then total - (f.size : Int) else total
    let kept : List ScanFile := if expired then [] else [f]
    if total' * 10 ≤ (max_size_bytes : Int) * 8 then (kept ++ rest, total')
    else
      let step := cleanup_sweep now max_size_bytes total' rest
      (kept ++ step.1, step.2)

/-- FileCache._cleanup_old_files: enumerate the files, sort oldest
first, and run the sweep loop.  The 80 percent threshold comparison is
exact rational arithmetic. -/
def cleanup_old_files (now : Nat) (max_size_bytes : Nat) (total_size : Int)
    (files : List ScanFile) : List ScanFile × Int :=
  cleanup_sweep now max_size_bytes total_size (List.insertionSort mtimeLe files)

/-! ## Cache orchestrator (adapters/cache/multi_cache_manager.py) -/

/-- The APITier enum as defined inside multi_cache_manager.py (the
fallback definition that is in force whenever the auth import is
unavailable; note its member set differs from the auth manager's). -/
inductive MTier where
  | free
  | all_star
  | goat
  | enterprise
deriving DecidableEq, Repr

/-- CacheStrategy enum of the orchestrator. -/
inductive CacheStrategy where
  | redis_only
  | file_only
  | layered
  | historical
  | tier_optimized
deriving DecidableEq, Repr

/-- One entry of the orchestrator's tier_strategies table; the float
ttl_multiplier is scaled by ten to stay in integers. -/
structure TierStrategyConfig where
  redis_priority : Bool
  file_cache_enabled : Bool
  warming_enabled : Bool
  ttl_multiplier_x10 : Nat
deriving DecidableEq, Repr

/-- The tier_strategies table built in MultiCacheManager.__init__. -/
def tier_strategies : MTier → TierStrategyConfig
  | .free => ⟨false, true, false, 10⟩
  | .all_star => ⟨true, true, true, 12⟩
  | .goat => ⟨true, true, true, 15⟩
  | .enterprise => ⟨true, true, true, 20⟩

/-- Cache-priority ordinal of a tier: the tier registry's ascending
order free, all_star, goat, enterprise (matching the strictly
increasing ttl_multiplier column of tier_strategies). -/
def mtier_cache_priority : MTier → Nat
  | .free => 1
  | .all_star => 2
  | .goat => 3
  | .enterprise => 4

/-- The historical_endpoints set of _determine_cache_strategy. -/
def historical_endpoints : List String :=
  ["historical_stats", "season_stats", "career_stats", "archives"]

/-- The membership test: any member of historical_endpoints occurring as
a substring of the endpoint. -/
def is_historical_endpoint (endpoint : String) : Bool :=
  historical_endpoints.any (fun h => strContains endpoint h)

/-- MultiCacheManager._determine_cache_strategy.  auth_available is the
AUTH_AVAILABLE module flag; has_redis / has_file tell whether the two
layer objects are present. -/
def determine_cache_strategy (auth_available has_redis has_file : Bool)
    (tier : Option MTier) (endpoint : Option String)
    (force_strategy : Option CacheStrategy) : CacheStrategy :=
  match force_strategy with
  | some s => s
  | none =>
    if (match endpoint with
        | some e => is_historical_endpoint e
        | none => false) then
      CacheStrategy.historical
    else if tier.isSome && auth_available then
      if (tier_strategies (tier.getD MTier.free)).redis_priority then
        CacheStrategy.layered
      else CacheStrategy.file_only
    else if has_redis && has_file then CacheStrategy.layered
    else if has_redis then CacheStrategy.redis_only
    else if has_file then CacheStrategy.file_only
    else CacheStrategy.redis_only

/-- Membership of a strategy in the list that triggers the hot-layer
write or probe (REDIS_ONLY, LAYERED, TIER_OPTIMIZED). -/
def in_redis_strategies : CacheStrategy → Bool
  | .redis_only => true
  | .layered => true
  | .tier_optimized => true
  | _ => false

/-- Membership of a strategy in the list that triggers the
persistent-layer write or probe (FILE_ONLY, LAYERED, HISTORICAL). -/
def in_file_strategies : CacheStrategy → Bool
  | .file_only => true
  | .layered => true
  | .historical => true
  | _ => false

/-- Number of cache layers a strategy touches, given which layer objects
are present. -/
def layers_touched (s : CacheStrategy) (has_redis has_file : Bool) : Nat :=
  (if in_redis_strategies s && has_redis then 1 else 0) +
  (if in_file_strategies s && has_file then 1 else 0)

/-- Outcome of one cache layer's write as seen by the orchestrator:
either a normal return with a success flag, or a raised exception. -/
inductive LayerOutcome where
  | ok (b : Bool)
  | exc (msg : String)
deriving DecidableEq, Repr

/-- The try / except around one layer write in MultiCacheManager.set: a
normal return passes its flag through, a raised exception is caught and
leaves the success flag False. -/
def layer_result : LayerOutcome → Bool
  | .ok b => b
  | .exc _ => false

/-- Result of MultiCacheManager.set: the returned pair of per-layer
success flags, plus whether each layer write was attempted at all. -/
structure MCSetResult where
  redis_attempted : Bool
  file_attempted : Bool
  redis_success : Bool
  file_success : Bool
deriving DecidableEq, Repr

/-- MultiCacheManager.set: resolve the strategy, attempt the hot-layer
write when the strategy and layer presence call for it, then attempt
the persistent-layer write likewise, each under its own try / except;
always return the (redis_success, file_success) pair.  The behavior of
each layer write is supplied as a LayerOutcome argument, so a raised
exception in either layer is expressible. -/
def mcm_set (auth_available has_redis has_file : Bool) (tier : Option MTier)
    (endpoint : String) (force_strategy : Option CacheStrategy)
    (redis_outcome file_outcome : LayerOutcome) : MCSetResult :=
  let strategy :=
    determine_cache_strategy auth_available has_redis has_file tier
      (some endpoint) force_strategy
  let redis_attempted := in_redis_strategies strategy && has_redis
  let file_attempted := in_file_strategies strategy && has_file
  { redis_attempted := redis_attempted
    file_attempted := file_attempted
    redis_success := if redis_attempted then layer_result redis_outcome else false
    file_success := if file_attempted then layer_result file_outcome else false }

/-! ## Helper lemmas -/

theorem dget_dput_self {β : Type} (l : List (String × β)) (k : String) (v : β) :
    dget (dput l k v) k = some v := by
  induction l with
  | nil => simp [dget, dput]
  | cons p rest ih =>
    by_cases h : p.1 = k
    · simp [dput, dget, h]
    · simp [dput, dget, h, ih]

theorem dget_dput_ne {β : Type} (l : List (String × β)) (k k' : String) (v : β)
    (h : k' ≠ k) : dget (dput l k v) k' = dget l k' := by
  have h2 : k ≠ k' := Ne.symm h
  induction l with
  | nil => simp [dget, dput, h2]
  | cons p rest ih =>
    obtain ⟨a, b⟩ := p
    by_cases hp : a = k
    · subst hp
      simp [dput, dget, h2]
    · by_cases hp' : a = k'
      · simp [dput, dget, hp, hp', h]
      · simp [dput, dget, hp, hp', ih]

theorem countKey_dput_self {β : Type} (l : List (String × β)) (k : String) (v : β)
    (h : countKey l k ≤ 1) : countKey (dput l k v) k = 1 := by
  induction l with
  | nil => simp [countKey, dput]
  | cons p rest ih =>
    obtain ⟨a, b⟩ := p
    by_cases hp : a = k
    · simp only [countKey, if_pos hp] at h
      have h0 : countKey rest k = 0 := by omega
      simp [dput, countKey, hp, h0]
    · simp only [countKey, if_neg hp, Nat.zero_add] at h
      simp [dput, countKey, hp, ih h]

theorem fcGet_fcPut_self (l : List (CachePath × FileBytes)) (p : CachePath)
    (v : FileBytes) : fcGet (fcPut l p v) p = some v := by
  induction l with
  | nil => simp [fcGet, fcPut]
  | cons q rest ih =>
    by_cases h : q.1 = p
    · simp [fcPut, fcGet, h]
    · simp [fcPut, fcGet, h, ih]

theorem tier_limits_minute_pos (t : APITier) :
    0 < (tier_limits t).requests_per_minute := by
  cases t <;> decide

-- check_rate_limit on a known record when neither window has elapsed:
-- no counter is reset, the record is written back unchanged, and the
-- verdict and info dict are computed from the unchanged counters.
theorem check_rate_limit_no_reset (st : AuthState) (k : String) (ki : APIKeyInfo)
    (now : Nat) (hget : dget st.api_keys k = some ki)
    (hh : now < ki.hourly_reset_time) (hm : now < ki.minute_reset_time) :
    check_rate_limit st (some k) now =
      (⟨dput st.api_keys k ki, st.default_key_id⟩,
       decide (ki.hourly_requests < (tier_limits ki.tier).requests_per_hour ∧
               ki.minute_requests < (tier_limits ki.tier).requests_per_minute),
       some
         ⟨ki.tier.value,
          (tier_limits ki.tier).requests_per_hour - ki.hourly_requests,
          (tier_limits ki.tier).requests_per_minute - ki.minute_requests,
          ki.hourly_reset_time, ki.minute_reset_time,
          (tier_limits ki.tier).concurrent_requests⟩) := by
  have h1 : ¬ (ki.hourly_reset_time ≤ now) := by omega
  have h2 : ¬ (ki.minute_reset_time ≤ now) := by omega
  simp [check_rate_limit, effective_key_id, hget, h1, h2]

-- check_rate_limit on a known record when the minute window has elapsed
-- but the hourly window has not: the minute counter is reset to zero and
-- its boundary advanced to exactly one window length past now.
theorem check_rate_limit_minute_reset (st : AuthState) (k : String)
    (ki : APIKeyInfo) (now : Nat) (hget : dget st.api_keys k = some ki)
    (hh : now < ki.hourly_reset_time) (hm : ki.minute_reset_time ≤ now) :
    check_rate_limit st (some k) now =
      (⟨dput st.api_keys k
          { ki with minute_requests := 0, minute_reset_time := now + 60 },
        st.default_key_id⟩,
       decide (ki.hourly_requests < (tier_limits ki.tier).requests_per_hour ∧
               0 < (tier_limits ki.tier).requests_per_minute),
       some
         ⟨ki.tier.value,
          (tier_limits ki.tier).requests_per_hour - ki.hourly_requests,
          (tier_limits ki.tier).requests_per_minute,
          ki.hourly_reset_time, now + 60,
          (tier_limits ki.tier).concurrent_requests⟩) := by
  have h1 : ¬ (ki.hourly_reset_time ≤ now) := by omega
  simp [check_rate_limit, effective_key_id, hget, h1, hm]

-- record_request on a known record: the three counters are incremented
-- and last_used stamped, whatever the success flag.
theorem record_request_known (st : AuthState) (k : String) (ki : APIKeyInfo)
    (success : Bool) (now : Nat) (hget : dget st.api_keys k = some ki) :
    record_request st (some k) success now =
      ⟨dput st.api_keys k
         { ki with
           requests_count := ki.requests_count + 1
           hourly_requests := ki.hourly_requests + 1
           minute_requests := ki.minute_requests + 1
           last_used := timeStamp now },
       st.default_key_id⟩ := by
  simp [record_request, effective_key_id, hget]

-- One authorize-then-record round on a known record inside both
-- windows: the record gains one unit on each counter and nothing else
-- about its windows changes.
theorem auth_cycle_step (st : AuthState) (k : String) (ki : APIKeyInfo)
    (now : Nat) (hget : dget st.api_keys k = some ki)
    (hh : now < ki.hourly_reset_time) (hm : now < ki.minute_reset_time) :
    dget (auth_cycle st (some k) now).api_keys k =
      some
        { ki with
          requests_count := ki.requests_count + 1
          hourly_requests := ki.hourly_requests + 1
          minute_requests := ki.minute_requests + 1
          last_used := timeStamp now } := by
  unfold auth_cycle
  rw [check_rate_limit_no_reset st k ki now hget hh hm]
  rw [record_request_known _ k ki true now (by simpa using dget_dput_self st.api_keys k ki)]
  simpa using dget_dput_self _ k _

-- State of the key record after j authorize-then-record rounds at a
-- fixed instant inside both windows: each counter has gained j and the
-- window boundaries are untouched.
theorem auth_cycles_state (k : String) (now : Nat) (j : Nat) :
    ∀ (st : AuthState) (ki : APIKeyInfo), dget st.api_keys k = some ki →
      now < ki.hourly_reset_time → now < ki.minute_reset_time →
      ∃ ki', dget (auth_cycles (some k) now j st).api_keys k = some ki' ∧
        ki'.tier = ki.tier ∧
        ki'.requests_count = ki.requests_count + j ∧
        ki'.hourly_requests = ki.hourly_requests + j ∧
        ki'.minute_requests = ki.minute_requests + j ∧
        ki'.hourly_reset_time = ki.hourly_reset_time ∧
        ki'.minute_reset_time = ki.minute_reset_time ∧
        ki'.is_active = ki.is_active := by
  induction j with
  | zero =>
    intro st ki hget _ _
    exact ⟨ki, hget, rfl, rfl, rfl, rfl, rfl, rfl, rfl⟩
  | succ n ih =>
    intro st ki hget hh hm
    have hstep := auth_cycle_step st k ki now hget hh hm
    obtain ⟨ki', hget', ht, hc, hhr, hmr, hhb, hmb, ha⟩ :=
      ih (auth_cycle st (some k) now)
        { ki with
          requests_count := ki.requests_count + 1
          hourly_requests := ki.hourly_requests + 1
          minute_requests := ki.minute_requests + 1
          last_used := timeStamp now }
        hstep (by simpa using hh) (by simpa using hm)
    refine ⟨ki', ?_, ?_, ?_, ?_, ?_, ?_, ?_, ?_⟩
    · simpa [auth_cycles] using hget'
    · simpa using ht
    · simp at hc
      omega
    · simp at hhr
      omega
    · simp at hmr
      omega
    · simpa using hhb
    · simpa using hmb
    · simpa using ha

/-- C3: for a registered active key whose tier allows L requests per
minute, starting from a fresh minute window with the hourly limit not
reached: the first L authorize checks, each followed by recordUsage,
return allowed = true; the check after the L-th usage inside the same
window returns allowed = false with minute_remaining = 0; and at the
first authorize with now2 at or past the minute reset boundary the
minute counter is reset to zero with the new boundary exactly one
window length (60 s) ahead of that moment, and that call is allowed
again.  The info dict is present with remaining counts and both reset
timestamps on allowed and denied outcomes alike. -/
theorem c3_rate_limit_window
    (st : AuthState) (k : String) (r : APIKeyInfo) (now now2 : Nat)
    (hget : dget st.api_keys k = some r)
    (hactive : r.is_active = true)
    (hm0 : r.minute_requests = 0)
    (hmr : r.minute_reset_time = now + 60)
    (hh : now < r.hourly_reset_time)
    (hH : r.hourly_requests + (tier_limits r.tier).requests_per_minute <
          (tier_limits r.tier).requests_per_hour)
    (hn2a : now + 60 ≤ now2)
    (hn2b : now2 < r.hourly_reset_time) :
    (∀ j, j < (tier_limits r.tier).requests_per_minute →
      (check_rate_limit (auth_cycles (some k) now j st) (some k) now).2.1 = true ∧
      ∃ info,
        (check_rate_limit (auth_cycles (some k) now j st) (some k) now).2.2 =
          some info ∧
        info.minute_remaining = (tier_limits r.tier).requests_per_minute - j ∧
        info.hourly_remaining =
          (tier_limits r.tier).requests_per_hour - (r.hourly_requests + j) ∧
        info.minute_reset = now + 60 ∧
        info.hourly_reset = r.hourly_reset_time) ∧
    ((check_rate_limit
        (auth_cycles (some k) now (tier_limits r.tier).requests_per_minute st)
        (some k) now).2.1 = false ∧
      ∃ info,
        (check_rate_limit
          (auth_cycles (some k) now (tier_limits r.tier).requests_per_minute st)
          (some k) now).2.2 = some info ∧
        info.minute_remaining = 0 ∧
        info.minute_reset = now + 60 ∧
        info.hourly_reset = r.hourly_reset_time) ∧
    ((check_rate_limit
        (check_rate_limit
          (auth_cycles (some k) now (tier_limits r.tier).requests_per_minute st)
          (some k) now).1
        (some k) now2).2.1 = true ∧
      (∃ r2,
        dget
          (check_rate_limit
            (check_rate_limit
              (auth_cycles (some k) now
                (tier_limits r.tier).requests_per_minute st)
              (some k) now).1
            (some k) now2).1.api_keys k = some r2 ∧
        r2.minute_requests = 0 ∧ r2.minute_reset_time = now2 + 60) ∧
      ∃ info,
        (check_rate_limit
          (check_rate_limit
            (auth_cycles (some k) now
              (tier_limits r.tier).requests_per_minute st)
            (some k) now).1
          (some k) now2).2.2 = some info ∧
        info.minute_remaining = (tier_limits r.tier).requests_per_minute ∧
        info.minute_reset = now2 + 60) := by
  have hmnow : now < r.minute_reset_time := by omega
  refine ⟨?_, ?_, ?_⟩
  · -- the first L checks are allowed, with full info
    intro j hj
    obtain ⟨ki', hget', ht, hc, hhr, hmr', hhb, hmb, ha⟩ :=
      auth_cycles_state k now j st r hget hh hmnow
    have hh' : now < ki'.hourly_reset_time := by omega
    have hm' : now < ki'.minute_reset_time := by omega
    rw [check_rate_limit_no_reset _ k ki' now hget' hh' hm']
    constructor
    · rw [ht]
      simp only [decide_eq_true_eq]
      exact ⟨by omega, by omega⟩
    · refine ⟨_, rfl, ?_, ?_, ?_, ?_⟩
      · dsimp only
        rw [ht]
        omega
      · dsimp only
        rw [ht]
        omega
      · dsimp only
        omega
      · dsimp only
        omega
  · -- the check after L usages is denied with minute_remaining = 0
    obtain ⟨ki', hget', ht, hc, hhr, hmr', hhb, hmb, ha⟩ :=
      auth_cycles_state k now (tier_limits r.tier).requests_per_minute st r hget
        hh hmnow
    have hh' : now < ki'.hourly_reset_time := by omega
    have hm' : now < ki'.minute_reset_time := by omega
    rw [check_rate_limit_no_reset _ k ki' now hget' hh' hm']
    constructor
    · rw [ht]
      simp only [decide_eq_false_iff_not]
      rintro ⟨h1, h2⟩
      omega
    · refine ⟨_, rfl, ?_, ?_, ?_⟩
      · dsimp only
        rw [ht]
        omega
      · dsimp only
        omega
      · dsimp only
        omega
  · -- after the boundary, the counter resets and the call is allowed
    obtain ⟨ki', hget', ht, hc, hhr, hmr', hhb, hmb, ha⟩ :=
      auth_cycles_state k now (tier_limits r.tier).requests_per_minute st r hget
        hh hmnow
    have hh' : now < ki'.hourly_reset_time := by omega
    have hm' : now < ki'.minute_reset_time := by omega
    rw [check_rate_limit_no_reset _ k ki' now hget' hh' hm']
    have hget2 : dget (dput (auth_cycles (some k) now
        (tier_limits r.tier).requests_per_minute st).api_keys k ki') k =
        some ki' := dget_dput_self _ k ki'
    have hh2 : now2 < ki'.hourly_reset_time := by omega
    have hm2 : ki'.minute_reset_time ≤ now2 := by omega
    rw [check_rate_limit_minute_reset _ k ki' now2 hget2 hh2 hm2]
    refine ⟨?_, ?_, ?_⟩
    · rw [ht]
      simp only [decide_eq_true_eq]
      exact ⟨by omega, tier_limits_minute_pos r.tier⟩
    · exact ⟨_, dget_dput_self _ k _, rfl, rfl⟩
    · refine ⟨_, rfl, ?_, rfl⟩
      dsimp only
      rw [ht]

/-- C3 witness: a concrete free-tier key (10 requests per minute) in a
fresh minute window; the check following ten recorded usages inside the
window is denied. -/
theorem c3_rate_limit_window_witness :
    (check_rate_limit
      (auth_cycles (some "k1") 1000 10
        ⟨[("k1", ⟨"k1", APITier.free, "x", "0", "0", 0, 0, 5000, 0, 1060, true,
                  none⟩)], some "k1"⟩)
      (some "k1") 1000).2.1 = false :=
  (c3_rate_limit_window
    ⟨[("k1", ⟨"k1", APITier.free, "x", "0", "0", 0, 0, 5000, 0, 1060, true,
              none⟩)], some "k1"⟩
    "k1" ⟨"k1", APITier.free, "x", "0", "0", 0, 0, 5000, 0, 1060, true, none⟩
    1000 1060 (by decide) (by decide) (by decide) (by decide) (by decide)
    (by decide) (by decide) (by decide)).2.1.1

-- The record and binding-count shape after n + 1 registrations of the
-- same secret: exactly one binding, holding the fresh record of the
-- last add_api_key call (all counters zero).
theorem register_n_state (sec : String) (tier : APITier) (label : Option String)
    (dflt : Bool) (now : Nat) (n : Nat) :
    ∀ st : AuthState, countKey st.api_keys (generate_key_id sec) ≤ 1 →
      dget (register_n sec tier label dflt now (n + 1) st).api_keys
          (generate_key_id sec) =
        some ⟨generate_key_id sec, tier, encrypt_key sec, timeStamp now,
              timeStamp now, 0, 0, 0, 0, 0, true, label⟩ ∧
      countKey (register_n sec tier label dflt now (n + 1) st).api_keys
          (generate_key_id sec) = 1 := by
  induction n with
  | zero =>
    intro st hc
    constructor
    · show dget (dput st.api_keys (generate_key_id sec) _) _ = _
      exact dget_dput_self _ _ _
    · exact countKey_dput_self _ _ _ hc
  | succ m ih =>
    intro st hc
    have hc' : countKey (add_api_key st now sec tier label dflt).1.api_keys
        (generate_key_id sec) ≤ 1 := by
      have h1 := countKey_dput_self st.api_keys (generate_key_id sec)
        ⟨generate_key_id sec, tier, encrypt_key sec, timeStamp now,
         timeStamp now, 0, 0, 0, 0, 0, true, label⟩ hc
      simpa [add_api_key] using Nat.le_of_eq h1
    simpa [register_n] using ih (add_api_key st now sec tier label dflt).1 hc'

/-- C1 counterexample: registering a secret, recording one request, then
re-registering the same secret returns the same keyId but resets the
usage counter from 1 back to 0, contradicting the claim that repeated
registrations never reset counters. -/
theorem c1_counterexample :
    (add_api_key
      (record_request
        (add_api_key ⟨[], none⟩ 100 "bdl_demo_secret_key_123" APITier.free none
          false).1
        (some (add_api_key ⟨[], none⟩ 100 "bdl_demo_secret_key_123" APITier.free
          none false).2)
        true 105)
      110 "bdl_demo_secret_key_123" APITier.free none false).2 =
      (add_api_key ⟨[], none⟩ 100 "bdl_demo_secret_key_123" APITier.free none
        false).2 ∧
    (dget
      (record_request
        (add_api_key ⟨[], none⟩ 100 "bdl_demo_secret_key_123" APITier.free none
          false).1
        (some (add_api_key ⟨[], none⟩ 100 "bdl_demo_secret_key_123" APITier.free
          none false).2)
        true 105).api_keys
      (add_api_key ⟨[], none⟩ 100 "bdl_demo_secret_key_123" APITier.free none
        false).2).map APIKeyInfo.requests_count = some 1 ∧
    (dget
      (add_api_key
        (record_request
          (add_api_key ⟨[], none⟩ 100 "bdl_demo_secret_key_123" APITier.free none
            false).1
          (some (add_api_key ⟨[], none⟩ 100 "bdl_demo_secret_key_123"
            APITier.free none false).2)
          true 105)
        110 "bdl_demo_secret_key_123" APITier.free none false).1.api_keys
      (add_api_key ⟨[], none⟩ 100 "bdl_demo_secret_key_123" APITier.free none
        false).2).map APIKeyInfo.requests_count = some 0 := by
  decide

/-- C1 (amended): registering the same secret any number of times
returns the same keyId on every call and leaves the manager holding
exactly one record for that keyId; however each re-registration
replaces the record with a fresh one, resetting requests_count,
hourly_requests and minute_requests to zero (the original claim that
counters are never reset does not hold). -/
theorem c1_register_idempotent_id (st : AuthState) (sec : String)
    (tier : APITier) (label : Option String) (dflt : Bool) (now : Nat) (n : Nat)
    (hc : countKey st.api_keys (generate_key_id sec) ≤ 1) :
    (∀ st' : AuthState, ∀ now' : Nat,
      (add_api_key st' now' sec tier label dflt).2 = generate_key_id sec) ∧
    countKey (register_n sec tier label dflt now (n + 1) st).api_keys
      (generate_key_id sec) = 1 ∧
    dget (register_n sec tier label dflt now (n + 1) st).api_keys
        (generate_key_id sec) =
      some ⟨generate_key_id sec, tier, encrypt_key sec, timeStamp now,
            timeStamp now, 0, 0, 0, 0, 0, true, label⟩ := by
  obtain ⟨h1, h2⟩ := register_n_state sec tier label dflt now n st hc
  exact ⟨fun _ _ => rfl, h2, h1⟩

/-- C1 witness: three registrations of a concrete secret on an empty
manager leave one binding holding the fresh zero-counter record. -/
theorem c1_register_idempotent_id_witness :
    countKey (register_n "bdl_demo_secret_key_123" APITier.free none false 100 3
        ⟨[], none⟩).api_keys
      (generate_key_id "bdl_demo_secret_key_123") = 1 :=
  (c1_register_idempotent_id ⟨[], none⟩ "bdl_demo_secret_key_123" APITier.free
    none false 100 2 (by decide)).2.1

/-- C4: for a key that resolves to a known record, record_request
increments requests_count, hourly_requests and minute_requests each by
exactly one and stamps last_used, for every value of the success flag;
the function takes no other input that could make it skip the
increments, so a response served from cache is charged identically. -/
theorem c4_record_usage_increments (st : AuthState) (key_id : Option String)
    (kid : String) (r : APIKeyInfo) (success : Bool) (now : Nat)
    (hk : effective_key_id st key_id = some kid)
    (hr : dget st.api_keys kid = some r) :
    dget (record_request st key_id success now).api_keys kid =
      some
        { r with
          requests_count := r.requests_count + 1
          hourly_requests := r.hourly_requests + 1
          minute_requests := r.minute_requests + 1
          last_used := timeStamp now } := by
  simp [record_request, hk, hr, dget_dput_self]

/-- C4 witness: recording a request with success = false against a
concrete known key increments all three counters. -/
theorem c4_record_usage_increments_witness :
    dget (record_request
      ⟨[("k1", ⟨"k1", APITier.free, "x", "0", "0", 7, 3, 5000, 2, 1060, true,
                none⟩)], some "k1"⟩
      (some "k1") false 1234).api_keys "k1" =
      some ⟨"k1", APITier.free, "x", "0", timeStamp 1234, 8, 4, 5000, 3, 1060,
            true, none⟩ :=
  c4_record_usage_increments
    ⟨[("k1", ⟨"k1", APITier.free, "x", "0", "0", 7, 3, 5000, 2, 1060, true,
              none⟩)], some "k1"⟩
    (some "k1") "k1"
    ⟨"k1", APITier.free, "x", "0", "0", 7, 3, 5000, 2, 1060, true, none⟩
    false 1234 (by decide) (by decide)

-- The cleanup sweep never deletes a file whose age is within its
-- strategy's retention window: deletion happens only on the expiry
-- branch.
theorem cleanup_sweep_keeps (now max_size_bytes : Nat) :
    ∀ (l : List ScanFile) (total : Int) (f : ScanFile), f ∈ l →
      age_days now f.mtime ≤ retention_days f.strategy →
      f ∈ (cleanup_sweep now max_size_bytes total l).1 := by
  intro l
  induction l with
  | nil =>
    intro total f hmem _
    cases hmem
  | cons g rest ih =>
    intro total f hmem hage
    rcases List.mem_cons.mp hmem with hf | hf
    · subst hf
      have hnexp : ¬ (retention_days f.strategy < age_days now f.mtime) := by
        omega
      by_cases hbrk : total * 10 ≤ (max_size_bytes : Int) * 8
      · simp [cleanup_sweep, hnexp, hbrk]
      · simp [cleanup_sweep, hnexp, hbrk]
    · by_cases hexp : retention_days g.strategy < age_days now g.mtime
      · by_cases hbrk :
            (total - (g.size : Int)) * 10 ≤ (max_size_bytes : Int) * 8
        · simp [cleanup_sweep, hexp, hbrk, hf]
        · simp only [cleanup_sweep, hexp, if_true, if_pos, hbrk, if_neg,
            not_false_iff, List.nil_append]
          simpa [hbrk] using ih (total - (g.size : Int)) f hf hage
      · by_cases hbrk : total * 10 ≤ (max_size_bytes : Int) * 8
        · simp [cleanup_sweep, hexp, hbrk, hf]
        · simp only [cleanup_sweep, hexp, hbrk]
          simpa [hexp, hbrk] using Or.inr (ih total f hf hage)

/-- C2 counterexample: (1) with two HISTORICAL files both older than 365
days, the sweep deletes the oldest, then stops because the recorded
total size is already at or below 80 percent of the cap, leaving the
second expired file in place — so expired files are not deleted
regardless of size pressure; (2) with the recorded total size above the
cap but every file inside its retention window, the sweep deletes
nothing and the total stays above 80 percent of the cap — so no
oldest-first size eviction takes place. -/
theorem c2_counterexample :
    (cleanup_old_files (86400 * 400) 1000 200
      [⟨⟨"nba", "teams", "historical", "a.cache"⟩, 86400, 100,
        FileCacheStrategy.historical⟩,
       ⟨⟨"nba", "teams", "historical", "b.cache"⟩, 0, 100,
        FileCacheStrategy.historical⟩]).1 =
      [⟨⟨"nba", "teams", "historical", "a.cache"⟩, 86400, 100,
        FileCacheStrategy.historical⟩] ∧
    365 < age_days (86400 * 400) 86400 ∧
    (cleanup_old_files 86400 1000 5000
      [⟨⟨"nba", "teams", "daily", "c.cache"⟩, 0, 5000,
        FileCacheStrategy.daily⟩]).1 =
      [⟨⟨"nba", "teams", "daily", "c.cache"⟩, 0, 5000,
        FileCacheStrategy.daily⟩] ∧
    (cleanup_old_files 86400 1000 5000
      [⟨⟨"nba", "teams", "daily", "c.cache"⟩, 0, 5000,
        FileCacheStrategy.daily⟩]).2 * 10 > (1000 : Int) * 8 := by
  decide

/-- C2 (amended): the sweep scans files oldest-first and deletes a file
only when its age exceeds its strategy's retention window, stopping as
soon as the recorded total size is at most 80 percent of the cap (so
expired files past that stopping point survive, and no file is ever
deleted for size pressure alone).  Every file within its retention
window survives every sweep; in particular a 10-day-old HISTORICAL
entry is present afterwards, and a 366-day-old HISTORICAL entry that is
the oldest file is absent afterwards. -/
theorem c2_cleanup_retention (now max_size_bytes : Nat) (total : Int)
    (files : List ScanFile) (f : ScanFile) (hmem : f ∈ files)
    (hage : age_days now f.mtime ≤ retention_days f.strategy) :
    f ∈ (cleanup_old_files now max_size_bytes total files).1 ∧
    (cleanup_old_files (86400 * 400) 1000000000 200
      [⟨⟨"nba", "teams", "historical", "old.cache"⟩, 86400 * 34, 100,
        FileCacheStrategy.historical⟩,
       ⟨⟨"nba", "teams", "historical", "young.cache"⟩, 86400 * 390, 100,
        FileCacheStrategy.historical⟩]).1 =
      [⟨⟨"nba", "teams", "historical", "young.cache"⟩, 86400 * 390, 100,
        FileCacheStrategy.historical⟩] := by
  constructor
  · exact cleanup_sweep_keeps now max_size_bytes _ total f
      ((List.mem_insertionSort mtimeLe).mpr hmem) hage
  · decide

/-- C2 witness: the 10-day-old HISTORICAL file of the concrete scenario
is kept by the sweep. -/
theorem c2_cleanup_retention_witness :
    (⟨⟨"nba", "teams", "historical", "young.cache"⟩, 86400 * 390, 100,
      FileCacheStrategy.historical⟩ : ScanFile) ∈
      (cleanup_old_files (86400 * 400) 1000000000 200
        [⟨⟨"nba", "teams", "historical", "old.cache"⟩, 86400 * 34, 100,
          FileCacheStrategy.historical⟩,
         ⟨⟨"nba", "teams", "historical", "young.cache"⟩, 86400 * 390, 100,
          FileCacheStrategy.historical⟩]).1 :=
  (c2_cleanup_retention (86400 * 400) 1000000000 200
    [⟨⟨"nba", "teams", "historical", "old.cache"⟩, 86400 * 34, 100,
      FileCacheStrategy.historical⟩,
     ⟨⟨"nba", "teams", "historical", "young.cache"⟩, 86400 * 390, 100,
      FileCacheStrategy.historical⟩]
    ⟨⟨"nba", "teams", "historical", "young.cache"⟩, 86400 * 390, 100,
      FileCacheStrategy.historical⟩
    (by decide) (by decide)).1

-- Totality of the code-point lexicographic order.
theorem strLeChars_total : ∀ as bs : List Char,
    strLeChars as bs = true ∨ strLeChars bs as = true := by
  intro as
  induction as with
  | nil =>
    intro bs
    exact Or.inl rfl
  | cons a as' ih =>
    intro bs
    cases bs with
    | nil => exact Or.inr rfl
    | cons b bs' =>
      rcases lt_trichotomy a b with hab | hab | hab
      · exact Or.inl (by simp [strLeChars, hab])
      · subst hab
        rcases ih bs' with h | h
        · exact Or.inl (by simp [strLeChars, lt_irrefl, h])
        · exact Or.inr (by simp [strLeChars, lt_irrefl, h])
      · exact Or.inr (by simp [strLeChars, hab])

-- Transitivity of the code-point lexicographic order.
theorem strLeChars_trans : ∀ as bs cs : List Char,
    strLeChars as bs = true → strLeChars bs cs = true →
    strLeChars as cs = true := by
  intro as
  induction as with
  | nil =>
    intro bs cs _ _
    rfl
  | cons a as' ih =>
    intro bs cs h1 h2
    cases bs with
    | nil => simp [strLeChars] at h1
    | cons b bs' =>
      cases cs with
      | nil => simp [strLeChars] at h2
      | cons c cs' =>
        rcases lt_trichotomy a b with hab | hab | hab
        · rcases lt_trichotomy b c with hbc | hbc | hbc
          · simp [strLeChars, lt_trans hab hbc]
          · subst hbc
            simp [strLeChars, hab]
          · simp [strLeChars, hbc, not_lt_of_lt hbc] at h2
        · subst hab
          rcases lt_trichotomy a c with hac | hac | hac
          · simp [strLeChars, hac]
          · subst hac
            simp only [strLeChars, lt_irrefl, if_false] at h1 h2 ⊢
            exact ih bs' cs' h1 h2
          · simp [strLeChars, hac, not_lt_of_lt hac] at h2
        · simp [strLeChars, hab, not_lt_of_lt hab] at h1

-- Antisymmetry of the code-point lexicographic order.
theorem strLeChars_antisymm : ∀ as bs : List Char,
    strLeChars as bs = true → strLeChars bs as = true → as = bs := by
  intro as
  induction as with
  | nil =>
    intro bs _ h2
    cases bs with
    | nil => rfl
    | cons b bs' => simp [strLeChars] at h2
  | cons a as' ih =>
    intro bs h1 h2
    cases bs with
    | nil => simp [strLeChars] at h1
    | cons b bs' =>
      rcases lt_trichotomy a b with hab | hab | hab
      · simp [strLeChars, hab, not_lt_of_lt hab] at h2
      · subst hab
        simp only [strLeChars, lt_irrefl, if_false] at h1 h2
        rw [ih bs' h1 h2]
      · simp [strLeChars, hab, not_lt_of_lt hab] at h1

-- Antisymmetry lifted to strings.
theorem strLe_antisymm (x y : String) (h1 : strLe x y = true)
    (h2 : strLe y x = true) : x = y :=
  String.ext (strLeChars_antisymm x.data y.data h1 h2)

-- Canonicalization is insensitive to insertion order: two params dicts
-- with the same bindings (a permutation with no duplicate keys) sort to
-- the same canonical list.
theorem sortParams_eq_of_perm (l1 l2 : Params)
    (hnd : (l1.map Prod.fst).Nodup) (hp : List.Perm l1 l2) :
    sortParams l1 = sortParams l2 := by
  have htot : IsTotal (String × PVal) paramKeyLe :=
    ⟨fun p q => strLeChars_total p.1.data q.1.data⟩
  have htrans : IsTrans (String × PVal) paramKeyLe :=
    ⟨fun p q r h1 h2 => strLeChars_trans p.1.data q.1.data r.1.data h1 h2⟩
  have hperm1 : List.Perm (sortParams l1) l1 := List.perm_insertionSort _ l1
  have hperm2 : List.Perm (sortParams l2) l2 := List.perm_insertionSort _ l2
  have hperm : List.Perm (sortParams l1) (sortParams l2) :=
    (hperm1.trans hp).trans hperm2.symm
  have hs1 : List.Sorted paramKeyLe (sortParams l1) :=
    @List.sorted_insertionSort _ paramKeyLe _ htot htrans l1
  have hs2 : List.Sorted paramKeyLe (sortParams l2) :=
    @List.sorted_insertionSort _ paramKeyLe _ htot htrans l2
  have hnd2 : (l2.map Prod.fst).Nodup := hnd.perm (hp.map Prod.fst)
  have hnds1 : ((sortParams l1).map Prod.fst).Nodup :=
    hnd.perm (hperm1.map Prod.fst).symm
  have hnds2 : ((sortParams l2).map Prod.fst).Nodup :=
    hnd2.perm (hperm2.map Prod.fst).symm
  have hpw1 : List.Pairwise (fun p q : String × PVal => p.1 ≠ q.1)
      (sortParams l1) := List.pairwise_map.mp hnds1
  have hpw2 : List.Pairwise (fun p q : String × PVal => p.1 ≠ q.1)
      (sortParams l2) := List.pairwise_map.mp hnds2
  have hanti : IsAntisymm (String × PVal)
      (fun p q => paramKeyLe p q ∧ p.1 ≠ q.1) :=
    ⟨fun p q h1 h2 => absurd (strLe_antisymm p.1 q.1 h1.1 h2.1) h1.2⟩
  have hss1 : List.Sorted (fun p q : String × PVal => paramKeyLe p q ∧ p.1 ≠ q.1)
      (sortParams l1) := hs1.and hpw1
  have hss2 : List.Sorted (fun p q : String × PVal => paramKeyLe p q ∧ p.1 ≠ q.1)
      (sortParams l2) := hs2.and hpw2
  exact @List.eq_of_perm_of_sorted _ _ hanti _ _ hperm hss1 hss2

/-- C5 counterexample: the persistent-cache path is not a pure function
of (sport, endpoint, canonicalized params) plus the strategy alone — it
also embeds the current month time-bucket, so the same query resolved
in two different months yields two different paths. -/
theorem c5_counterexample :
    get_file_path Sport.nba "teams" [] FileCacheStrategy.transient "2024-01" ≠
    get_file_path Sport.nba "teams" [] FileCacheStrategy.transient "2024-02" := by
  decide

/-- C5 (amended): the hot-cache key is a pure function of (sport,
endpoint, canonicalized params): two params dicts equal as maps but
differing in insertion order yield the identical key.  The
persistent-cache path is likewise insensitive to params insertion
order, but depends additionally on the strategy argument and the
current month time-bucket: it is identical for the two orderings only
when computed in the same month. -/
theorem c5_key_canonicalization (sport : Sport) (endpoint : String)
    (l1 l2 : Params) (strategy : FileCacheStrategy) (month_str : String)
    (hnd : (l1.map Prod.fst).Nodup) (hp : List.Perm l1 l2) :
    generate_cache_key sport endpoint l1 = generate_cache_key sport endpoint l2 ∧
    get_file_path sport endpoint l1 strategy month_str =
      get_file_path sport endpoint l2 strategy month_str := by
  have hj : jsonDumpsSorted l1 = jsonDumpsSorted l2 := by
    unfold jsonDumpsSorted
    rw [sortParams_eq_of_perm l1 l2 hnd hp]
  constructor
  · unfold generate_cache_key
    rw [hj]
  · unfold get_file_path
    rw [hj]

/-- C5 witness: the params written in the two insertion orders of the
claim produce the identical hot-cache key and, within one month bucket,
the identical persistent path. -/
theorem c5_key_canonicalization_witness :
    generate_cache_key Sport.nba "teams" [("b", PVal.i 2), ("a", PVal.i 1)] =
      generate_cache_key Sport.nba "teams" [("a", PVal.i 1), ("b", PVal.i 2)] ∧
    get_file_path Sport.nba "teams" [("b", PVal.i 2), ("a", PVal.i 1)]
        FileCacheStrategy.transient "2024-01" =
      get_file_path Sport.nba "teams" [("a", PVal.i 1), ("b", PVal.i 2)]
        FileCacheStrategy.transient "2024-01" :=
  c5_key_canonicalization Sport.nba "teams"
    [("b", PVal.i 2), ("a", PVal.i 1)] [("a", PVal.i 1), ("b", PVal.i 2)]
    FileCacheStrategy.transient "2024-01" (by decide) (by decide)

/-- C6: reading the hot cache never increases any key's remaining TTL.
A hit re-stores the record through _update_hit_count with SETEX using
exactly the TTL the key had left, so the expiry instant is unchanged (a
read never restores the original full TTL); a miss changes nothing. -/
theorem c6_ttl_monotone (rs : RedisState) (sport : Sport) (endpoint : String)
    (params : Params) (now : Nat) (k : String) :
    redisTtl (redis_get rs sport endpoint params now).1 k now ≤
      redisTtl rs k now := by
  unfold redis_get
  by_cases hen : (rs.enabled && rs.connected) = true
  · simp only [hen, not_true_eq_false, if_false]
    cases hraw : redisRawGet rs (generate_cache_key sport endpoint params) now with
    | none => simp [hraw]
    | some v =>
      cases v with
      | gzipped e0 => simp [hraw]
      | plain entry =>
        simp only [hraw]
        unfold redisRawGet at hraw
        cases hst : dget rs.store (generate_cache_key sport endpoint params) with
        | none =>
          rw [hst] at hraw
          simp at hraw
        | some e =>
          simp only [hst] at hraw
          by_cases hlt : now < e.expire_at
          · rw [if_pos hlt] at hraw
            unfold update_hit_count
            have httl : redisTtl rs (generate_cache_key sport endpoint params) now =
                (e.expire_at : Int) - (now : Int) := by
              simp [redisTtl, hst, hlt]
            rw [httl]
            have hpos : (0 : Int) < (e.expire_at : Int) - (now : Int) := by omega
            rw [if_pos hpos]
            have htn : now + ((e.expire_at : Int) - (now : Int)).toNat =
                e.expire_at := by omega
            by_cases hk : k = generate_cache_key sport endpoint params
            · subst hk
              simp [redisTtl, redisSetex, dget_dput_self, htn, hst, hlt]
              omega
            · simp [redisTtl, redisSetex, dget_dput_ne _ _ _ _ hk]
          · rw [if_neg hlt] at hraw
            simp at hraw
  · simp [hen]

-- Every entry of the TTL policy table is positive.
theorem get_ttl_pos (s : Sport) (e : String) : 0 < get_ttl_for_endpoint s e := by
  cases s <;> unfold get_ttl_for_endpoint <;> split_ifs <;> decide

set_option maxRecDepth 8000 in
/-- C7 counterexample: a payload whose serialized hot-layer entry
exceeds the 1 KB compression threshold is accepted and stored
gzip-compressed, yet the immediately following get on the identical
(sport, endpoint, params) returns a miss instead of the stored
payload: the decode_responses=True client raises on the gzip bytes, so
the claimed hit for compressed entries never happens. -/
theorem c7_counterexample :
    (redis_set ⟨true, true, []⟩ Sport.nba "teams"
      ⟨some true, String.mk (List.replicate 1100 'x')⟩ [] 0).2 = true ∧
    (redis_get
      (redis_set ⟨true, true, []⟩ Sport.nba "teams"
        ⟨some true, String.mk (List.replicate 1100 'x')⟩ [] 0).1
      Sport.nba "teams" [] 0).2 = none := by
  decide

/-- C7 (amended): set followed immediately by get on the identical
(sport, endpoint, params) — no intervening expiry, eviction or
invalidation — round-trips the payload byte-identically in the
persistent layer for every payload, compressed or not; in the hot
layer it does so exactly when the serialized entry did not cross the
compression threshold (and was therefore stored uncompressed).  When
the threshold is crossed the value is stored gzip-compressed and the
decode_responses=True client raises on the read, so the immediate get
is a miss (None), never a corrupt hit. -/
theorem c7_round_trip (rs : RedisState) (fs : FCState) (sport : Sport)
    (endpoint : String) (params : Params) (d : String)
    (strategy : FileCacheStrategy) (tier_priority : Nat) (month_str : String)
    (now : Nat) (hen : rs.enabled = true) (hcon : rs.connected = true) :
    ((renderCacheEntry ⟨d, timeStamp now, sport.value, endpoint, false,
          0⟩).length ≤ redis_compression_threshold →
      (redis_set rs sport endpoint ⟨some true, d⟩ params now).2 = true ∧
      (redis_get (redis_set rs sport endpoint ⟨some true, d⟩ params now).1 sport
          endpoint params now).2 =
        some ⟨d, true, sport.value, true, timeStamp now, 1⟩) ∧
    (redis_compression_threshold <
        (renderCacheEntry ⟨d, timeStamp now, sport.value, endpoint, false,
          0⟩).length →
      (redis_set rs sport endpoint ⟨some true, d⟩ params now).2 = true ∧
      (redis_get (redis_set rs sport endpoint ⟨some true, d⟩ params now).1 sport
          endpoint params now).2 = none) ∧
    ((file_set fs sport endpoint d params strategy tier_priority month_str
      now).2 = true ∧
    (file_get
        (file_set fs sport endpoint d params strategy tier_priority month_str
          now).1
        sport endpoint params strategy month_str now).2 = some d) := by
  have hlt : now < now + get_ttl_for_endpoint sport endpoint := by
    have := get_ttl_pos sport endpoint
    omega
  refine ⟨?_, ?_, ?_, ?_⟩
  · intro hsm
    have hcmp : ¬ (redis_compression_threshold <
        (renderCacheEntry ⟨d, timeStamp now, sport.value, endpoint, false,
          0⟩).length) := not_lt.mpr hsm
    constructor
    · simp [redis_set, hen, hcon]
    · simp [redis_set, redis_get, redisSetex, redisRawGet, update_hit_count,
        dget_dput_self, hen, hcon, hcmp, hlt]
  · intro hcmp
    constructor
    · simp [redis_set, hen, hcon]
    · simp [redis_set, redis_get, redisSetex, redisRawGet, update_hit_count,
        dget_dput_self, hen, hcon, hcmp, hlt]
  · simp [file_set]
  · by_cases hcmp : file_compression_threshold <
        (renderFileCacheEntry
          ⟨d, timeStamp now, sport.value, endpoint,
            md5Hex8 (jsonDumpsSorted params), 0, "", 0, false,
            tier_priority⟩).length
    · simp [file_set, file_get, serialize_entry, fcGet_fcPut_self, hcmp]
    · simp [file_set, file_get, serialize_entry, fcGet_fcPut_self, hcmp]

/-- C7 witness: a small concrete payload (below the compression
threshold) stored and immediately re-read from the hot layer comes
back identical. -/
theorem c7_round_trip_witness :
    (redis_get
      (redis_set ⟨true, true, []⟩ Sport.nba "teams" ⟨some true, "[1]"⟩
        [("a", PVal.i 1)] 0).1
      Sport.nba "teams" [("a", PVal.i 1)] 0).2 =
      some ⟨"[1]", true, Sport.nba.value, true, timeStamp 0, 1⟩ :=
  ((c7_round_trip ⟨true, true, []⟩ ⟨[], 0, 1000⟩ Sport.nba "teams"
    [("a", PVal.i 1)] "[1]" FileCacheStrategy.transient 1 "2024-01" 0 rfl
    rfl).1 (by decide)).2

/-- C8: when the resolved strategy implies both layers, MultiCacheManager.set
attempts the persistent-layer write whatever the hot-layer write did
(normal failure or raised exception) and vice versa, and it returns the
(redis_success, file_success) pair where each flag depends only on its
own layer's outcome; the per-layer try/except is what makes the
function total, so no single layer's failure propagates as an
exception. -/
theorem c8_set_layer_isolation (auth_available has_redis has_file : Bool)
    (tier : Option MTier) (endpoint : String)
    (force_strategy : Option CacheStrategy)
    (redis_outcome file_outcome : LayerOutcome)
    (hs : determine_cache_strategy auth_available has_redis has_file tier
        (some endpoint) force_strategy = CacheStrategy.layered)
    (hr : has_redis = true) (hf : has_file = true) :
    mcm_set auth_available has_redis has_file tier endpoint force_strategy
        redis_outcome file_outcome =
      ⟨true, true, layer_result redis_outcome, layer_result file_outcome⟩ := by
  unfold mcm_set
  rw [hs, hr, hf]
  simp [in_redis_strategies, in_file_strategies]

/-- C8 witness: with both layers present and a LAYERED strategy, a
raised exception in the hot-layer write still lets the persistent write
be attempted and succeed; the returned pair is (false, true). -/
theorem c8_set_layer_isolation_witness :
    mcm_set false true true (some MTier.free) "teams" none
        (LayerOutcome.exc "boom") (LayerOutcome.ok true) =
      ⟨true, true, false, true⟩ :=
  c8_set_layer_isolation false true true (some MTier.free) "teams" none
    (LayerOutcome.exc "boom") (LayerOutcome.ok true) (by decide) rfl rfl

/-- C10 (implicit): RedisCache.set enforces the caller-side success
precondition itself: whenever the response's success flag is false or
absent, it returns False and leaves the backing store (indeed the whole
cache state) unchanged. -/
theorem c10_set_requires_success (rs : RedisState) (sport : Sport)
    (endpoint : String) (api_response : ApiResponse) (params : Params)
    (now : Nat) (hfail : api_response.success.getD false = false) :
    redis_set rs sport endpoint api_response params now = (rs, false) := by
  unfold redis_set
  by_cases hen : (rs.enabled && rs.connected) = true
  · simp [hen, hfail]
  · simp [hen]

/-- C10 witness: a response with no success flag is refused and the
store is untouched. -/
theorem c10_set_requires_success_witness :
    redis_set ⟨true, true, []⟩ Sport.nba "teams" ⟨none, "[1]"⟩ [] 0 =
      (⟨true, true, []⟩, false) :=
  c10_set_requires_success ⟨true, true, []⟩ Sport.nba "teams" ⟨none, "[1]"⟩ []
    0 rfl

/-- C9: for a fixed endpoint, a tier of higher cache priority never
resolves to a strategy touching strictly fewer cache layers than a
lower-priority tier (with both layer objects present), whether or not
the auth import is available; and an endpoint matching the
historical/career/archival set resolves to the persistent-only
HISTORICAL strategy for every tier, a strategy that touches the file
layer and not the hot layer. -/
theorem c9_strategy_monotonicity (auth_available : Bool) (tA tB : MTier)
    (endpoint : String)
    (hprio : mtier_cache_priority tB ≤ mtier_cache_priority tA) :
    layers_touched
        (determine_cache_strategy auth_available true true (some tB)
          (some endpoint) none) true true ≤
      layers_touched
        (determine_cache_strategy auth_available true true (some tA)
          (some endpoint) none) true true ∧
    (∀ t : MTier, is_historical_endpoint endpoint = true →
      determine_cache_strategy auth_available true true (some t)
        (some endpoint) none = CacheStrategy.historical) ∧
    in_redis_strategies CacheStrategy.historical = false ∧
    in_file_strategies CacheStrategy.historical = true := by
  by_cases hh : is_historical_endpoint endpoint = true
  · refine ⟨?_, ?_, by decide, by decide⟩
    · simp [determine_cache_strategy, hh]
    · intro t _
      simp [determine_cache_strategy, hh]
  · refine ⟨?_, ?_, by decide, by decide⟩
    · simp only [determine_cache_strategy, hh, if_false, Bool.false_eq_true,
        Option.isSome_some, Bool.true_and]
      cases auth_available
      · simp
      · revert hprio
        cases tA <;> cases tB <;> decide
    · intro t hcontra
      exact absurd hcontra hh

/-- C9 witness: with the auth flag set, the lowest-priority FREE tier
resolves to one layer and the higher-priority GOAT tier to two, for a
concrete non-historical endpoint. -/
theorem c9_strategy_monotonicity_witness :
    layers_touched
        (determine_cache_strategy true true true (some MTier.free)
          (some "teams") none) true true ≤
      layers_touched
        (determine_cache_strategy true true true (some MTier.goat)
          (some "teams") none) true true :=
  (c9_strategy_monotonicity true MTier.goat MTier.free "teams" (by decide)).1
